import Mathlib

/-!
Shallow embedding of the youpower-Billing tariff engine.

Sources:
* `src/sdge_gbd_processor.py` — hardcoded schedule (namespace `GBD`);
* `src/sdge_processor_configurable.py` — externally-configured schedule
  (namespace `SDGEProcessor`).

Monetary amounts and kWh quantities are embedded as exact rationals;
dates as (year, month, day) triples of naturals.
-/

/-- Calendar date, proleptic Gregorian: `y`ear, `m`onth (1–12), `d`ay. -/
structure Date where
  y : Nat
  m : Nat
  d : Nat
deriving DecidableEq

/-- Day count since 0000-03-01 (Gregorian civil-from-days algorithm),
used to model the day-of-week computation done by the dataframe library
(`dt.dayofweek`). Valid for `y ≥ 1`. -/
def days_from_civil (y m d : Nat) : Nat :=
  let yy := if m ≤ 2 then y - 1 else y
  let era := yy / 400
  let yoe := yy % 400
  let doy := (153 * (if 2 < m then m - 3 else m + 9) + 2) / 5 + d - 1
  let doe := yoe * 365 + yoe / 4 - yoe / 100 + doy
  era * 146097 + doe

/-- Day of week with Monday = 0 … Sunday = 6, as produced by the
dataframe library's `dt.dayofweek` (both processors rely on it). -/
def dayofweek (dt : Date) : Nat :=
  (days_from_civil dt.y dt.m dt.d + 2) % 7

/-- Model of `df['IsWeekend'] = df['Weekday'].isin([5, 6])` — Saturday (5) or Sunday (6). -/
def is_weekend (dt : Date) : Bool :=
  decide (dayofweek dt = 5) || decide (dayofweek dt = 6)

namespace GBD

/-- Pricing tiers of the hardcoded TOU-DR schedule. -/
inductive Tier
  | on_peak
  | off_peak
  | super_off_peak
deriving DecidableEq

/-- The string the hardcoded processor uses for each tier. -/
def Tier.name : Tier → String
  | .on_peak => "on_peak"
  | .off_peak => "off_peak"
  | .super_off_peak => "super_off_peak"

/-- Seasons of the hardcoded schedule. -/
inductive Season
  | summer
  | winter
deriving DecidableEq

/-- The `RATES` table of `sdge_gbd_processor.py` (exact rationals). -/
def RATES : Season → Tier → ℚ
  | .summer, .on_peak => 59908 / 100000
  | .summer, .off_peak => 52754 / 100000
  | .summer, .super_off_peak => 45000 / 100000
  | .winter, .on_peak => 58155 / 100000
  | .winter, .off_peak => 51899 / 100000
  | .winter, .super_off_peak => 50084 / 100000

/-- The `HOLIDAYS` list of `sdge_gbd_processor.py`; the `%-m/%-d/%Y` strings
are embedded as (month, day, year) triples. -/
def HOLIDAYS : List (Nat × Nat × Nat) :=
  [(1, 1, 2025), (2, 17, 2025), (5, 26, 2025), (7, 4, 2025),
   (9, 1, 2025), (11, 11, 2025), (11, 27, 2025), (12, 25, 2025)]

/-- Function `get_season` of `sdge_gbd_processor.py`: summer iff `6 <= month <= 10`. -/
def get_season (date : Date) : Season :=
  if 6 ≤ date.m ∧ date.m ≤ 10 then .summer else .winter

/-- Function `is_holiday` of `sdge_gbd_processor.py`: membership of the formatted
date in `HOLIDAYS`. -/
def is_holiday (date : Date) : Bool :=
  decide ((date.m, date.d, date.y) ∈ HOLIDAYS)

/-- Model of `df['IsWeekendHoliday'] = df['IsWeekend'] | df['IsHoliday']`. -/
def is_weekend_holiday (date : Date) : Bool :=
  is_weekend date || is_holiday date

/-- The two day-type schedules. -/
inductive DayType
  | weekday
  | weekend_or_holiday
deriving DecidableEq

/-- Day-type selection as performed by both processors. -/
def day_type (date : Date) : DayType :=
  if is_weekend_holiday date then .weekend_or_holiday else .weekday

/-- Function `get_time_period` of `sdge_gbd_processor.py` (the hardcoded resolver).
The third argument mirrors the `is_weekend_holiday` parameter. -/
def get_time_period (date : Date) (hour : Nat) (iwh : Bool) : Tier :=
  let month := date.m
  if iwh then
    if 16 ≤ hour ∧ hour < 21 then .on_peak
    else if (14 ≤ hour ∧ hour < 16) ∨ (21 ≤ hour ∧ hour < 24) then .off_peak
    else .super_off_peak
  else
    if 16 ≤ hour ∧ hour < 21 then .on_peak
    else if (6 ≤ hour ∧ hour < 16) ∨ (21 ≤ hour ∧ hour < 24) then
      if month ∈ ([3, 4] : List Nat) ∧ (10 ≤ hour ∧ hour < 14) then .super_off_peak
      else .off_peak
    else .super_off_peak

/-- One interval row as consumed by the pricing step of
`process_gbd_files` (only the columns that feed the computation). -/
structure Row where
  date : Date
  hour : Nat
  net : ℚ

/-- The priced columns `process_gbd_files` adds to a row:
`Season`, `TimePeriod`, `Rate`, `Cost = Net * Rate`. -/
structure PricedRow where
  season : Season
  period : Tier
  rate : ℚ
  cost : ℚ

/-- The per-row pricing computation of
`process_gbd_files` (lines 126–140 of `sdge_gbd_processor.py`). -/
def price_row (r : Row) : PricedRow :=
  let season := get_season r.date
  let period := get_time_period r.date r.hour (is_weekend_holiday r.date)
  let rate := RATES season period
  ⟨season, period, rate, r.net * rate⟩

end GBD

/-! Section: Configurable processor (`sdge_processor_configurable.py`) -/

/-- Python `str.replace(old, new)` for single-character arguments, as used at
line 47 of `sdge_processor_configurable.py` (`period_name.replace('_', '_')`). -/
def str_replace (s : String) (old new : Char) : String :=
  ⟨s.data.map fun c => if c = old then new else c⟩

/-- The `special_periods` block of a day schedule in the JSON
configuration: active months and the override sub-ranges. -/
structure SpecialPeriods where
  months : List Nat
  super_off_peak_extra : List (Nat × Nat)
deriving DecidableEq

/-- One day-type entry of `config['time_periods']`: the insertion-ordered
tier-name → hour-range-list mapping (with the `special_periods` key,
which the resolver's loop skips, kept apart). -/
structure DaySchedule where
  periods : List (String × List (Nat × Nat))
  special_periods : Option SpecialPeriods
deriving DecidableEq

/-- The `config['time_periods']` block. -/
structure TimePeriods where
  weekday : DaySchedule
  weekend_holiday : DaySchedule
deriving DecidableEq

/-- One season's entry of `config['rates']`: its `months` key plus the
tier-name → price entries. -/
structure SeasonConfig where
  months : List Nat
  prices : List (String × ℚ)
deriving DecidableEq

/-- The parsed JSON configuration consumed by `SDGEProcessor`; holidays
are the raw `%Y-%m-%d` strings, embedded as (year, month, day) triples. -/
structure Config where
  holidays : List (Nat × Nat × Nat)
  summer : SeasonConfig
  winter : SeasonConfig
  time_periods : TimePeriods
deriving DecidableEq

/-- Leap-year test of the Gregorian calendar (for `strptime` validity). -/
def is_leap_year (y : Nat) : Bool :=
  (y % 4 == 0 && y % 100 != 0) || y % 400 == 0

/-- Number of days of month `m` in year `y`. -/
def days_in_month (y m : Nat) : Nat :=
  if m = 2 then (if is_leap_year y then 29 else 28)
  else if m ∈ ([4, 6, 9, 11] : List Nat) then 30
  else 31

/-- Model of `datetime.strptime(h, '%Y-%m-%d').date()`: succeeds exactly on valid
calendar dates, as an `Option` (an invalid string raises). -/
def parse_holiday (h : Nat × Nat × Nat) : Option Date :=
  if 1 ≤ h.2.1 ∧ h.2.1 ≤ 12 ∧ 1 ≤ h.2.2 ∧ h.2.2 ≤ days_in_month h.1 h.2.1 then
    some ⟨h.1, h.2.1, h.2.2⟩
  else none

namespace SDGEProcessor

/-- The state `SDGEProcessor.__init__` builds: `self.config` and the
parsed `self.holidays`. -/
structure Processor where
  config : Config
  holidays : List Date
deriving DecidableEq

/-- Method `SDGEProcessor.__init__`: stores the configuration and converts the
holiday strings to dates. It fails only when a holiday string fails to
parse; the schedule itself is not validated. -/
def init (config : Config) : Option Processor :=
  match config.holidays.mapM parse_holiday with
  | some hs => some ⟨config, hs⟩
  | none => none

/-- Method `SDGEProcessor.get_season`: summer iff the month is in
`config['rates']['summer']['months']`. -/
def get_season (config : Config) (dt : Date) : String :=
  if dt.m ∈ config.summer.months then "summer" else "winter"

/-- Method `SDGEProcessor.is_holiday`: membership in the parsed holiday list. -/
def is_holiday (hs : List Date) (dt : Date) : Bool :=
  decide (dt ∈ hs)

/-- The first loop of `SDGEProcessor.get_time_period`: scan the tier
entries in order and return the (transformed) name of the first tier one
of whose `[start, end)` ranges contains the hour. -/
def findPeriod (hour : Nat) : List (String × List (Nat × Nat)) → Option String
  | [] => none
  | (period_name, hours_list) :: rest =>
    if hours_list.any fun r => decide (r.1 ≤ hour ∧ hour < r.2) then
      some (str_replace period_name '_' '_')
    else findPeriod hour rest

/-- The tail of `SDGEProcessor.get_time_period` (lines 50–57): when no
base range matched, check the month-scoped `special_periods` override and
fall back to `off_peak`. -/
def special_fallback (ds : DaySchedule) (hour month : Nat) : String :=
  match ds.special_periods with
  | some special =>
    if month ∈ special.months ∧
        (special.super_off_peak_extra.any fun r => decide (r.1 ≤ hour ∧ hour < r.2)) then
      "super_off_peak"
    else "off_peak"
  | none => "off_peak"

/-- Method `SDGEProcessor.get_time_period` (lines 36–57 of
`sdge_processor_configurable.py`): base ranges first; then, only when no
base range matched and the day is a weekday, the month-scoped
`special_periods` override; `off_peak` as the final default. -/
def get_time_period (tp : TimePeriods) (hour : Nat) (iwh : Bool) (month : Nat) : String :=
  let periods := if iwh then tp.weekend_holiday else tp.weekday
  match findPeriod hour periods.periods with
  | some name => name
  | none => if iwh then "off_peak" else special_fallback periods hour month

/-- One interval row as consumed by `SDGEProcessor.process_file`
(the columns feeding the computation). -/
structure UsageInterval where
  date : Date
  hour : Nat
  net : ℚ
deriving DecidableEq

/-- The priced columns `process_file` computes for a row. -/
structure ClassifiedInterval where
  season : String
  period : String
  rate : ℚ
  net : ℚ
  cost : ℚ
deriving DecidableEq

/-- Lookup `self.config['rates'][season][tier]` as an `Option` (a missing tier
key raises `KeyError`). `get_season` only ever produces the two season
names. -/
def lookup_rate (config : Config) (season period : String) : Option ℚ :=
  (if season = "summer" then config.summer else config.winter).prices.lookup period

/-- The per-row computation of `SDGEProcessor.process_file`
(lines 84–111): day-type, season, time period, rate lookup,
`Cost = Net * Rate`. A missing rate raises, which aborts the file. -/
def classify_row (p : Processor) (iv : UsageInterval) : Except String ClassifiedInterval :=
  let iwh := is_weekend iv.date || is_holiday p.holidays iv.date
  let season := get_season p.config iv.date
  let period := get_time_period p.config.time_periods iv.hour iwh iv.date.m
  match lookup_rate p.config season period with
  | some rate => .ok ⟨season, period, rate, iv.net, iv.net * rate⟩
  | none => .error period

/-- Method `SDGEProcessor.process_file` on the interval rows of one file: all
rows are classified, and the first failing rate lookup aborts the whole
file with that error. -/
def process_file (p : Processor) (f : List UsageInterval) : Except String (List ClassifiedInterval) :=
  f.mapM (classify_row p)

/-- The per-file loop of `SDGEProcessor.process_folder` (lines 130–144):
each file is processed inside a `try`; a failing file is reported and
skipped, and the loop keeps the data of the files that succeeded, in
order. -/
def successes (p : Processor) (files : List (List UsageInterval)) : List (List ClassifiedInterval) :=
  files.filterMap fun f => (process_file p f).toOption

/-- Model of `pd.concat(all_data)`: all classified rows of the successful files,
in file order. -/
def combined (p : Processor) (files : List (List UsageInterval)) : List ClassifiedInterval :=
  (successes p files).flatten

/-- Model of `combined['Net'].sum()` — the global net total. -/
def total_net (p : Processor) (files : List (List UsageInterval)) : ℚ :=
  ((combined p files).map ClassifiedInterval.net).sum

/-- Model of `combined['Cost'].sum()` — the global cost total. -/
def total_cost (p : Processor) (files : List (List UsageInterval)) : ℚ :=
  ((combined p files).map ClassifiedInterval.cost).sum

/-- Model of `combined.groupby('TimePeriod')['Cost'].sum()` — the global cost of
one tier name (zero when no row has that tier). -/
def period_cost (p : Processor) (files : List (List UsageInterval)) (t : String) : ℚ :=
  (((combined p files).filter fun ci => ci.period == t).map ClassifiedInterval.cost).sum

end SDGEProcessor

/-! Section: Concrete schedule descriptions and configurations -/

/-- A schedule description carrying the built-in tier ranges and override
verbatim: the hour ranges and override months/sub-range of the hardcoded
`get_time_period`, written down as configuration data. -/
def builtin_time_periods : TimePeriods :=
  { weekday :=
      { periods := [("on_peak", [(16, 21)]), ("off_peak", [(6, 16), (21, 24)]),
                    ("super_off_peak", [(0, 6)])],
        special_periods := some { months := [3, 4], super_off_peak_extra := [(10, 14)] } },
    weekend_holiday :=
      { periods := [("on_peak", [(16, 21)]), ("off_peak", [(14, 16), (21, 24)]),
                    ("super_off_peak", [(0, 14)])],
        special_periods := none } }

/-- The gap encoding of the built-in schedule: the weekday base off-peak
ranges leave the override hours `[10, 14)` uncovered, so those hours fall
through to the `special_periods` check. -/
def gapped_time_periods : TimePeriods :=
  { weekday :=
      { periods := [("on_peak", [(16, 21)]), ("off_peak", [(6, 10), (14, 16), (21, 24)]),
                    ("super_off_peak", [(0, 6)])],
        special_periods := some { months := [3, 4], super_off_peak_extra := [(10, 14)] } },
    weekend_holiday :=
      { periods := [("on_peak", [(16, 21)]), ("off_peak", [(14, 16), (21, 24)]),
                    ("super_off_peak", [(0, 14)])],
        special_periods := none } }

/-- A full configuration mirroring the built-in rates and holidays, with
the gap encoding of the schedule. -/
def example_config : Config :=
  { holidays := [(2025, 1, 1), (2025, 7, 4)],
    summer := { months := [6, 7, 8, 9, 10],
                prices := [("on_peak", 59908 / 100000), ("off_peak", 52754 / 100000),
                           ("super_off_peak", 45000 / 100000)] },
    winter := { months := [11, 12, 1, 2, 3, 4, 5],
                prices := [("on_peak", 58155 / 100000), ("off_peak", 51899 / 100000),
                           ("super_off_peak", 50084 / 100000)] },
    time_periods := gapped_time_periods }

/-- Processor for `example_config` together with its parsed holidays. -/
def example_processor : SDGEProcessor.Processor :=
  ⟨example_config, [⟨2025, 1, 1⟩, ⟨2025, 7, 4⟩]⟩

/-- A configuration whose winter rate table has no `super_off_peak`
entry: the resolver can produce a tier with no rate. -/
def missing_rate_config : Config :=
  { holidays := [],
    summer := { months := [6, 7, 8, 9, 10],
                prices := [("on_peak", 59908 / 100000), ("off_peak", 52754 / 100000),
                           ("super_off_peak", 45000 / 100000)] },
    winter := { months := [11, 12, 1, 2, 3, 4, 5],
                prices := [("on_peak", 58155 / 100000), ("off_peak", 51899 / 100000)] },
    time_periods := builtin_time_periods }

/-- Processor for `missing_rate_config` as a loaded processor (it has no holidays). -/
def missing_rate_processor : SDGEProcessor.Processor :=
  ⟨missing_rate_config, []⟩

/-- Range well-formedness invariant, from the specification: a tier
range `[start, end)` is well-formed when `start < end` and `end ≤ 24`. -/
def range_well_formed (r : Nat × Nat) : Prop :=
  r.1 < r.2 ∧ r.2 ≤ 24

/-- All hour ranges mentioned by a day schedule (base tiers and override). -/
def day_schedule_ranges (ds : DaySchedule) : List (Nat × Nat) :=
  (ds.periods.map Prod.snd).flatten ++
    (match ds.special_periods with
     | some sp => sp.super_off_peak_extra
     | none => [])

/-- Range well-formedness of a whole schedule description. -/
def ranges_well_formed (tp : TimePeriods) : Prop :=
  ∀ r ∈ day_schedule_ranges tp.weekday ++ day_schedule_ranges tp.weekend_holiday,
    range_well_formed r

/-- Season-coverage invariant, from the specification: every calendar
month belongs to exactly one of the two season month sets. -/
def season_coverage (config : Config) : Prop :=
  ∀ m ∈ ([1, 2, 3, 4, 5, 6, 7, 8, 9, 10, 11, 12] : List Nat),
    (m ∈ config.summer.months ↔ m ∉ config.winter.months)

/-- A configuration violating both load-time invariants: the weekday
`on_peak` range `[21, 16)` is ill-formed, and no month belongs to either
season month set. -/
def bad_range_config : Config :=
  { holidays := [],
    summer := { months := [], prices := [] },
    winter := { months := [], prices := [] },
    time_periods :=
      { weekday := { periods := [("on_peak", [(21, 16)])], special_periods := none },
        weekend_holiday := { periods := [], special_periods := none } } }

/-! Section: Helper lemmas -/

/-- Replacing a character by itself fixes every character list. -/
theorem map_replace_id (c : Char) :
    ∀ l : List Char, (l.map fun x => if x = c then c else x) = l
  | [] => rfl
  | a :: t => by
    simp only [List.map_cons, map_replace_id c t]
    by_cases h : a = c <;> simp [h]

/-- Applying `str_replace` with equal old and new characters is the identity. -/
theorem str_replace_self (s : String) (c : Char) : str_replace s c c = s := by
  cases s with
  | mk l => exact congrArg String.mk (map_replace_id c l)

/-- A permutation of an outer list induces a permutation of its flattening. -/
theorem perm_flatten {α : Type} {l₁ l₂ : List (List α)} (h : l₁.Perm l₂) :
    l₁.flatten.Perm l₂.flatten := by
  rw [List.flatten_eq_flatMap, List.flatten_eq_flatMap]
  exact h.flatMap_right id

/-- Unfolding of `special_fallback` when the schedule has a
`special_periods` block. -/
theorem special_fallback_some (ds : DaySchedule) (hour month : Nat) (sp : SpecialPeriods)
    (hsp : ds.special_periods = some sp) :
    SDGEProcessor.special_fallback ds hour month =
      if month ∈ sp.months ∧
          (sp.super_off_peak_extra.any fun r => decide (r.1 ≤ hour ∧ hour < r.2)) = true
      then "super_off_peak" else "off_peak" := by
  cases ds with
  | mk periods spo =>
    cases hsp
    rfl

/-! Section: Claim theorems -/

/-- C9: The string transform applied to the tier name in the
externally-configured resolver (`period_name.replace('_', '_')` inside
`SDGEProcessor.get_time_period`, embedded as `str_replace · '_' '_'` in
`findPeriod`) is the identity function: for every string `s` it returns
`s`, so tier names are passed through unchanged. -/
theorem claim_c9_transform_identity (s : String) :
    str_replace s '_' '_' = s :=
  str_replace_self s '_'

/-- C7: Under the built-in schedule, for both day-types, every date
and any month: no hour below 16 is `on_peak`, every hour in `[16, 21)`
is `on_peak`, and hour 21 is `off_peak` — so hour 16 is the first
on-peak hour and hour 21 the first hour after the on-peak window. -/
theorem claim_c7_on_peak_window (date : Date) (iwh : Bool) :
    (∀ hour, hour < 16 → GBD.get_time_period date hour iwh ≠ .on_peak) ∧
    (∀ hour, 16 ≤ hour → hour < 21 → GBD.get_time_period date hour iwh = .on_peak) ∧
    GBD.get_time_period date 21 iwh = .off_peak := by
  refine ⟨?_, ?_, ?_⟩
  · intro hour h
    interval_cases hour <;> cases iwh <;>
      simp [GBD.get_time_period] <;> split <;> simp
  · intro hour h1 h2
    cases iwh <;> simp [GBD.get_time_period, h1, h2]
  · cases iwh <;> simp [GBD.get_time_period]

/-- Witness for C7 at a concrete date. -/
theorem claim_c7_witness :
    GBD.get_time_period ⟨2025, 5, 1⟩ 15 false ≠ .on_peak ∧
    GBD.get_time_period ⟨2025, 5, 1⟩ 16 false = .on_peak ∧
    GBD.get_time_period ⟨2025, 5, 1⟩ 21 false = .off_peak :=
  ⟨(claim_c7_on_peak_window ⟨2025, 5, 1⟩ false).1 15 (by decide),
   (claim_c7_on_peak_window ⟨2025, 5, 1⟩ false).2.1 16 (by decide) (by decide),
   (claim_c7_on_peak_window ⟨2025, 5, 1⟩ false).2.2⟩

/-- C8: For every date, the day-type is `weekend_or_holiday` iff the
day of week is Saturday (5) or Sunday (6) or the date is a configured
holiday; in particular holiday status alone forces the weekend
schedule. -/
theorem claim_c8_day_type (date : Date) :
    (GBD.day_type date = .weekend_or_holiday ↔
      (dayofweek date = 5 ∨ dayofweek date = 6 ∨ GBD.is_holiday date = true)) ∧
    (GBD.is_holiday date = true → GBD.day_type date = .weekend_or_holiday) := by
  have hb : GBD.is_weekend_holiday date = true ↔
      (dayofweek date = 5 ∨ dayofweek date = 6 ∨ GBD.is_holiday date = true) := by
    simp [GBD.is_weekend_holiday, is_weekend, Bool.or_eq_true, decide_eq_true_eq, or_assoc]
  constructor
  · rw [← hb]
    cases h : GBD.is_weekend_holiday date <;> simp [GBD.day_type, h]
  · intro hh
    have h : GBD.is_weekend_holiday date = true := hb.mpr (Or.inr (Or.inr hh))
    simp [GBD.day_type, h]

/-- Witness for C8: 2025-07-04 is a Friday (weekday 4) and a
configured holiday, and is classified `weekend_or_holiday`. -/
theorem claim_c8_witness :
    GBD.day_type ⟨2025, 7, 4⟩ = .weekend_or_holiday ∧ dayofweek ⟨2025, 7, 4⟩ = 4 :=
  ⟨(claim_c8_day_type ⟨2025, 7, 4⟩).2 (by decide), by decide⟩

/-- C6: For every interval row, the computed cost equals net times
the looked-up unit rate exactly, and a negative net yields a negative
cost (a credit). -/
theorem claim_c6_cost_exact (r : GBD.Row) :
    (GBD.price_row r).cost = r.net * (GBD.price_row r).rate ∧
    (r.net < 0 → (GBD.price_row r).cost < 0) := by
  have hpos : ∀ s t, 0 < GBD.RATES s t := by
    intro s t; cases s <;> cases t <;> norm_num [GBD.RATES]
  constructor
  · rfl
  · intro h
    exact mul_neg_of_neg_of_pos h (hpos _ _)

/-- Witness for C6: a net-generating interval gets a negative cost. -/
theorem claim_c6_witness :
    (GBD.price_row ⟨⟨2025, 7, 15⟩, 14, -2⟩).cost < 0 :=
  (claim_c6_cost_exact ⟨⟨2025, 7, 15⟩, 14, -2⟩).2 (by norm_num)

/-- C1 counterexample: In the externally-configured resolver, on a
schedule encoding the built-in ranges verbatim, weekday hour 12 in month
4: the base match is `off_peak`, the month is in the override's
active-month set and the hour lies in the override sub-range `[10, 14)`,
yet the resolver returns the base tier, not `super_off_peak` — the
claimed precedence does not hold in that resolver. -/
theorem claim_c1_counterexample :
    SDGEProcessor.findPeriod 12 builtin_time_periods.weekday.periods = some "off_peak" ∧
    builtin_time_periods.weekday.special_periods =
      some { months := [3, 4], super_off_peak_extra := [(10, 14)] } ∧
    (4 ∈ ([3, 4] : List Nat) ∧ 10 ≤ 12 ∧ 12 < 14) ∧
    SDGEProcessor.get_time_period builtin_time_periods 12 false 4 ≠ "super_off_peak" := by
  refine ⟨by decide, rfl, by decide, by decide⟩

/-- C1 (amended): In the hardcoded resolver the weekday month-scoped
override does take precedence over the base off-peak match: hours in
`[10, 14)` (inside the base off-peak range `[6, 16)`) resolve to
`super_off_peak` in months 3 and 4. In the externally-configured
resolver, a matching base range is returned unchanged, so the override
is never consulted when the base match would be `off_peak`. -/
theorem claim_c1_amended :
    (∀ (date : Date) (hour : Nat), 10 ≤ hour → hour < 14 →
        date.m ∈ ([3, 4] : List Nat) →
        GBD.get_time_period date hour false = .super_off_peak) ∧
    (∀ (tp : TimePeriods) (hour month : Nat) (name : String),
        SDGEProcessor.findPeriod hour tp.weekday.periods = some name →
        SDGEProcessor.get_time_period tp hour false month = name) := by
  constructor
  · intro date hour h10 h14 hm
    have h16 : ¬(16 ≤ hour ∧ hour < 21) := by omega
    have hbase : (6 ≤ hour ∧ hour < 16) ∨ (21 ≤ hour ∧ hour < 24) := by omega
    simp [GBD.get_time_period, h16, hbase, hm, h10, h14]
  · intro tp hour month name h
    simp [SDGEProcessor.get_time_period, h]

/-- Witness for C1 (amended) at concrete inputs. -/
theorem claim_c1_amended_witness :
    GBD.get_time_period ⟨2025, 3, 10⟩ 11 false = .super_off_peak ∧
    SDGEProcessor.get_time_period builtin_time_periods 11 false 7 = "off_peak" :=
  ⟨claim_c1_amended.1 ⟨2025, 3, 10⟩ 11 (by decide) (by decide) (by decide),
   claim_c1_amended.2 builtin_time_periods 11 7 "off_peak" (by decide)⟩

/-- C2 counterexample: With a schedule description encoding the
built-in tier ranges and override verbatim, the two resolvers disagree:
weekday hour 11 in month 3 is `super_off_peak` for the hardcoded
resolver but not for the externally-configured one. -/
theorem claim_c2_counterexample :
    SDGEProcessor.get_time_period builtin_time_periods 11 false 3 ≠
      (GBD.get_time_period ⟨2025, 3, 11⟩ 11 false).name := by decide

/-- C2 (amended): The two resolvers agree on every hour below 24,
every month and both day-types when the configured schedule is the gap
encoding of the built-in one (base off-peak ranges leaving the override
hours uncovered, so they reach the `special_periods` fallback). -/
theorem claim_c2_amended (date : Date) (hour : Nat) (iwh : Bool) (hh : hour < 24) :
    SDGEProcessor.get_time_period gapped_time_periods hour iwh date.m =
      (GBD.get_time_period date hour iwh).name := by
  cases iwh
  · by_cases hm : date.m ∈ ([3, 4] : List Nat)
    · interval_cases hour <;>
        simp [SDGEProcessor.get_time_period, SDGEProcessor.findPeriod,
          SDGEProcessor.special_fallback, gapped_time_periods,
          GBD.get_time_period, GBD.Tier.name, str_replace_self, hm]
    · interval_cases hour <;>
        simp [SDGEProcessor.get_time_period, SDGEProcessor.findPeriod,
          SDGEProcessor.special_fallback, gapped_time_periods,
          GBD.get_time_period, GBD.Tier.name, str_replace_self, hm]
  · interval_cases hour <;>
      simp [SDGEProcessor.get_time_period, SDGEProcessor.findPeriod,
        SDGEProcessor.special_fallback, gapped_time_periods,
        GBD.get_time_period, GBD.Tier.name, str_replace_self]

/-- Witness for C2 (amended) at a concrete input. -/
theorem claim_c2_amended_witness :
    SDGEProcessor.get_time_period gapped_time_periods 11 false 3 =
      (GBD.get_time_period ⟨2025, 3, 12⟩ 11 false).name :=
  claim_c2_amended ⟨2025, 3, 12⟩ 11 false (by decide)

/-- C10: In the externally-configured resolver, the weekday
month-scoped override is consulted exactly when no base range matched:
if the month is active and the hour lies in an override sub-range the
result is `super_off_peak`; only when that also fails does the
`off_peak` fallback apply. -/
theorem claim_c10_override_fallback (tp : TimePeriods) (hour month : Nat)
    (sp : SpecialPeriods)
    (hbase : SDGEProcessor.findPeriod hour tp.weekday.periods = none)
    (hsp : tp.weekday.special_periods = some sp) :
    ((month ∈ sp.months ∧
        (sp.super_off_peak_extra.any fun r => decide (r.1 ≤ hour ∧ hour < r.2)) = true) →
      SDGEProcessor.get_time_period tp hour false month = "super_off_peak") ∧
    (¬(month ∈ sp.months ∧
        (sp.super_off_peak_extra.any fun r => decide (r.1 ≤ hour ∧ hour < r.2)) = true) →
      SDGEProcessor.get_time_period tp hour false month = "off_peak") := by
  have hstep : SDGEProcessor.get_time_period tp hour false month
      = match SDGEProcessor.findPeriod hour tp.weekday.periods with
        | some name => name
        | none => SDGEProcessor.special_fallback tp.weekday hour month := rfl
  have hmain : SDGEProcessor.get_time_period tp hour false month =
      SDGEProcessor.special_fallback tp.weekday hour month := by
    rw [hstep, hbase]
  rw [hmain, special_fallback_some tp.weekday hour month sp hsp]
  constructor <;> intro h
  · exact if_pos h
  · exact if_neg h

/-- Witness for C10 on the gap-encoded schedule, hour 12 (no base
range matches): month 3 gives `super_off_peak`, month 7 gives the
`off_peak` fallback. -/
theorem claim_c10_witness :
    SDGEProcessor.get_time_period gapped_time_periods 12 false 3 = "super_off_peak" ∧
    SDGEProcessor.get_time_period gapped_time_periods 12 false 7 = "off_peak" :=
  ⟨(claim_c10_override_fallback gapped_time_periods 12 3
      { months := [3, 4], super_off_peak_extra := [(10, 14)] } (by decide) rfl).1 (by decide),
   (claim_c10_override_fallback gapped_time_periods 12 7
      { months := [3, 4], super_off_peak_extra := [(10, 14)] } (by decide) rfl).2 (by decide)⟩

instance (r : Nat × Nat) : Decidable (range_well_formed r) :=
  decidable_of_iff (r.1 < r.2 ∧ r.2 ≤ 24) Iff.rfl

instance (tp : TimePeriods) : Decidable (ranges_well_formed tp) :=
  decidable_of_iff
    (∀ r ∈ day_schedule_ranges tp.weekday ++ day_schedule_ranges tp.weekend_holiday,
      range_well_formed r) Iff.rfl

instance (config : Config) : Decidable (season_coverage config) :=
  decidable_of_iff
    (∀ m ∈ ([1, 2, 3, 4, 5, 6, 7, 8, 9, 10, 11, 12] : List Nat),
      (m ∈ config.summer.months ↔ m ∉ config.winter.months)) Iff.rfl

/-- C3: when rate lookup fails for some interval of a file, that file's
processing aborts with the missing tier reported as the error, the batch
continues with the remaining files, and the accumulated results of the
other files are exactly what they would be without the failing file. -/
theorem claim_c3_missing_rate_isolated (p : SDGEProcessor.Processor)
    (pre post : List (List SDGEProcessor.UsageInterval))
    (f : List SDGEProcessor.UsageInterval) (e : String)
    (h : SDGEProcessor.process_file p f = .error e) :
    SDGEProcessor.successes p (pre ++ f :: post) =
      SDGEProcessor.successes p pre ++ SDGEProcessor.successes p post := by
  simp [SDGEProcessor.successes, List.filterMap_append, List.filterMap_cons, h, Except.toOption]

/-- Witness for C3: a winter rate table without `super_off_peak` makes
the 3 a.m. file fail; the batch result is the two other files' results,
unchanged. -/
theorem claim_c3_witness :
    SDGEProcessor.process_file missing_rate_processor [⟨⟨2025, 1, 6⟩, 3, 1⟩] =
      .error "super_off_peak" ∧
    SDGEProcessor.successes missing_rate_processor
        [[⟨⟨2025, 1, 6⟩, 7, 1⟩], [⟨⟨2025, 1, 6⟩, 3, 1⟩], [⟨⟨2025, 1, 6⟩, 8, 2⟩]] =
      SDGEProcessor.successes missing_rate_processor [[⟨⟨2025, 1, 6⟩, 7, 1⟩]] ++
        SDGEProcessor.successes missing_rate_processor [[⟨⟨2025, 1, 6⟩, 8, 2⟩]] :=
  ⟨by rfl,
   claim_c3_missing_rate_isolated missing_rate_processor [[⟨⟨2025, 1, 6⟩, 7, 1⟩]]
     [[⟨⟨2025, 1, 6⟩, 8, 2⟩]] [⟨⟨2025, 1, 6⟩, 3, 1⟩] "super_off_peak" (by rfl)⟩

/-- C4 counterexample: `bad_range_config` violates both the
range-well-formedness invariant (its weekday on-peak range is `[21, 16)`)
and the season-coverage invariant (no month belongs to either season),
yet loading succeeds — the claimed load-time failure does not happen. -/
theorem claim_c4_counterexample :
    ¬ ranges_well_formed bad_range_config.time_periods ∧
    ¬ season_coverage bad_range_config ∧
    SDGEProcessor.init bad_range_config = some ⟨bad_range_config, []⟩ := by
  refine ⟨by decide, by decide, rfl⟩

/-- C4 (amended): loading performs no schedule validation at all — for
every configuration whose holiday strings parse, `init` succeeds,
regardless of the season-coverage and range-well-formedness invariants;
their violation is not detected at load time. -/
theorem claim_c4_no_load_validation (config : Config)
    (h : (config.holidays.mapM parse_holiday).isSome = true) :
    ∃ hs, SDGEProcessor.init config = some ⟨config, hs⟩ := by
  cases ho : config.holidays.mapM parse_holiday with
  | none => rw [ho] at h; simp at h
  | some hs =>
    refine ⟨hs, ?_⟩
    unfold SDGEProcessor.init
    rw [ho]

/-- Witness for C4 (amended): the invalid schedule loads. -/
theorem claim_c4_witness :
    ∃ hs, SDGEProcessor.init bad_range_config = some ⟨bad_range_config, hs⟩ :=
  claim_c4_no_load_validation bad_range_config (by rfl)

/-- C5: the global net total, global cost total and global per-tier cost
breakdown are identical for every permutation of the file processing
order. -/
theorem claim_c5_order_independent (p : SDGEProcessor.Processor)
    (files1 files2 : List (List SDGEProcessor.UsageInterval))
    (h : files1.Perm files2) :
    SDGEProcessor.total_net p files1 = SDGEProcessor.total_net p files2 ∧
    SDGEProcessor.total_cost p files1 = SDGEProcessor.total_cost p files2 ∧
    ∀ t, SDGEProcessor.period_cost p files1 t = SDGEProcessor.period_cost p files2 t := by
  have hs : (SDGEProcessor.successes p files1).Perm (SDGEProcessor.successes p files2) :=
    h.filterMap _
  have hc : (SDGEProcessor.combined p files1).Perm (SDGEProcessor.combined p files2) :=
    perm_flatten hs
  exact ⟨(hc.map _).sum_eq, (hc.map _).sum_eq, fun t => ((hc.filter _).map _).sum_eq⟩

/-- Witness for C5: two concrete files in both orders. -/
theorem claim_c5_witness :
    SDGEProcessor.total_net example_processor
        [[⟨⟨2025, 7, 15⟩, 14, 2⟩], [⟨⟨2025, 1, 6⟩, 3, -1⟩]] =
      SDGEProcessor.total_net example_processor
        [[⟨⟨2025, 1, 6⟩, 3, -1⟩], [⟨⟨2025, 7, 15⟩, 14, 2⟩]] :=
  (claim_c5_order_independent example_processor _ _ (List.Perm.swap _ _ _)).1
